import Mathlib

/-!
Verification of the PyPy meta-interpreter / trace recorder (`pypy/jit/metainterp/pyjitpl.py`)
and the MiniMark generational garbage collector (`pypy/rpython/memory/gc/minimark.py`)
against their natural-language specification.

The development is a shallow embedding: the Python classes become Lean structures,
the methods become pure functions with explicit state passing, and machine words are
modelled by `Nat`/`Int` (with explicit `% 2 ^ 64` where unsigned wraparound matters).
Mutable object headers (`tid` words holding a 16-bit typeid plus flag bits) are
modelled as a structure with one named Boolean per `GCFLAG_xxx` bit; the bit-level
packing of the flags into one machine word is memory layout and is not modelled.
-/

/- ===================================================================
   Part 1: the trace recorder (`pyjitpl.py`)
   =================================================================== -/

/-- The three operand kinds of the register machine: `history.INT`, `history.REF`,
`history.FLOAT` (register banks `registers_i`, `registers_r`, `registers_f`). -/
inductive OpKind
  | int
  | ref
  | float
deriving DecidableEq

/-- An operand of a recorded operation: either a compile-time `Const` (kind and
value) or a `Box` (a trace-local runtime value).  Two boxes are "the same operand"
iff they are physically identical; physical identity is modelled by the `ident`
field, which is assumed to be allocated uniquely per box object. -/
inductive Operand
  | const (kind : OpKind) (value : Int)
  | box (kind : OpKind) (ident : Nat) (value : Int)
deriving DecidableEq

/-- `isinstance(box, Const)`. -/
def Operand.isConst : Operand → Bool
  | .const _ _ => true
  | .box _ _ _ => false

/-- The kind of an operand (`BoxInt` / `BoxPtr` / `BoxFloat`, resp. the `Const`
variants). -/
def Operand.kind : Operand → OpKind
  | .const k _ => k
  | .box k _ _ => k

/-- The concrete value carried by an operand. -/
def Operand.value : Operand → Int
  | .const _ v => v
  | .box _ _ v => v

/-- `resbox.constbox()`: ensure the operand is a `Const` carrying the same value. -/
def Operand.constbox : Operand → Operand
  | .const k v => .const k v
  | .box k _ v => .const k v

/-- `resbox.nonconstbox()`: a `Box` is returned unchanged.  (On the paths embedded
here the argument is always a box freshly produced by the executor.) -/
def Operand.nonconstbox : Operand → Operand
  | .box k i v => .box k i v
  | .const k v => .box k 0 v

/-- An entry of the trace (`history.ResOperation`): opcode number, argument
operands, optional result operand, optional descriptor (descriptors are opaque
handles; we model them by numbers). -/
structure OpRecord where
  opnum : Nat
  args : List Operand
  result : Option Operand
  descr : Option Nat
deriving DecidableEq

/-- Modelled from the spec: the opcode numbering of `resoperation.py` is not under
`src/`; only the always-pure opcode range `_ALWAYS_PURE_FIRST .. _ALWAYS_PURE_LAST`
(arithmetic, comparisons, non-raising reads) matters to the recording logic. -/
def rop_ALWAYS_PURE_FIRST : Nat := 10

/-- Modelled from the spec: upper end of the always-pure opcode range. -/
def rop_ALWAYS_PURE_LAST : Nat := 60

/-- Modelled from the spec: a representative always-pure arithmetic opcode. -/
def rop_INT_ADD : Nat := 12

/-- Modelled from the spec: the opcode of `GUARD_NOT_FORCED`, which selects the
`ResumeGuardForcedDescr` variant in `generate_guard`. -/
def rop_GUARD_NOT_FORCED : Nat := 103

/-- Value of the i-th argument operand, 0 if absent. -/
def argValue (args : List Operand) (i : Nat) : Int :=
  ((args.get? i).map Operand.value).getD 0

/-- Modelled from the spec: `executor.execute(cpu, metainterp, opnum, descr, *argboxes)`
"executes the given low-level operation against the concrete backend to obtain a
result".  The backend is out of scope; it is modelled as a deterministic function
producing a fresh result box whose value depends only on the opcode, the descriptor
and the operand values (with genuine arithmetic for the representative `INT_ADD`). -/
def executor_execute (opnum : Nat) (descr : Option Nat) (args : List Operand) : Operand :=
  if opnum = rop_INT_ADD then
    Operand.box OpKind.int 0 (argValue args 0 + argValue args 1)
  else
    Operand.box OpKind.int 0 (Int.ofNat (opnum + descr.getD 0) + argValue args 0)

/-- `MetaInterp._all_constants(*boxes)`: true iff every operand is a `Const`. -/
def all_constants : List Operand → Bool
  | [] => true
  | b :: rest => b.isConst && all_constants rest

/-- `history.record(opnum, argboxes, resbox, descr)`: append one operation record
to the trace (the trace is the `History.operations` list, oldest first). -/
def history_record (h : List OpRecord) (opnum : Nat) (argboxes : List Operand)
    (resbox : Option Operand) (descr : Option Nat) : List OpRecord :=
  h ++ [⟨opnum, argboxes, resbox, descr⟩]

/-- `MetaInterp._record_helper_nonpure_varargs`: record the operation and return
the result box unchanged. -/
def record_helper_nonpure_varargs (opnum : Nat) (resbox : Option Operand)
    (descr : Option Nat) (argboxes : List Operand) (h : List OpRecord) :
    Option Operand × List OpRecord :=
  (resbox, history_record h opnum argboxes resbox descr)

/-- `MetaInterp._record_helper_pure`: if all arguments are constants the operation
can be folded: the result is turned into a `Const` and nothing is recorded;
otherwise the result is kept as a box and the operation is recorded. -/
def record_helper_pure (opnum : Nat) (resbox : Operand) (descr : Option Nat)
    (argboxes : List Operand) (h : List OpRecord) : Option Operand × List OpRecord :=
  if all_constants argboxes then
    (some resbox.constbox, h)
  else
    record_helper_nonpure_varargs opnum (some resbox.nonconstbox) descr argboxes h

/-- `MetaInterp.execute_and_record(opnum, descr, *argboxes)`: execute the operation
against the backend, then route the result through the pure helper when the opcode
is in the always-pure range, and through the non-pure helper otherwise.  Returns
the result operand and the new trace. -/
def execute_and_record (opnum : Nat) (descr : Option Nat) (argboxes : List Operand)
    (h : List OpRecord) : Option Operand × List OpRecord :=
  let resbox := executor_execute opnum descr argboxes
  if rop_ALWAYS_PURE_FIRST ≤ opnum ∧ opnum ≤ rop_ALWAYS_PURE_LAST then
    record_helper_pure opnum resbox descr argboxes h
  else
    record_helper_nonpure_varargs opnum (some resbox) descr argboxes h

/- ----------  generate_guard  ---------- -/

/-- A captured resume snapshot: `resume.capture_resumedata` is not under `src/`;
modelled from the spec as recording the resume program counter of the top frame
together with the flavour of the resume descriptor. -/
structure ResumeCapture where
  capturedPc : Nat
  forced : Bool
deriving DecidableEq

/-- The slice of meta-interpreter state touched by `MIFrame.generate_guard`:
the trace, the blackholing flag, the current frame's program counter, the
original green key of the resume descriptor, and the list of captured resume
snapshots. -/
structure GuardState where
  history : List OpRecord
  blackholing : Bool
  pc : Nat
  originalGreenkey : Nat
  capturedResume : List ResumeCapture
deriving DecidableEq

/-- `MIFrame.generate_guard(opnum, box, extraargs, resumepc)`.  A `Const` tested
operand returns immediately; blackholing returns immediately; otherwise a guard
operation is recorded in the trace and a resume snapshot is captured at
`resumepc` (or at the current pc when `resumepc < 0`), with the frame pc restored
afterwards.  Returns the recorded guard operation, if any, with the new state. -/
def generate_guard (s : GuardState) (opnum : Nat) (box : Option Operand)
    (extraargs : List Operand) (resumepc : Int) : Option OpRecord × GuardState :=
  if (match box with | some b => b.isConst | none => false) then
    (none, s)
  else if s.blackholing then
    (none, s)
  else
    let moreargs := match box with
      | some b => b :: extraargs
      | none => extraargs
    let forced := opnum = rop_GUARD_NOT_FORCED
    let guardOp : OpRecord := ⟨opnum, moreargs, none, some s.originalGreenkey⟩
    let effectivePc := if 0 ≤ resumepc then resumepc.toNat else s.pc
    (some guardOp,
     { s with history := s.history ++ [guardOp],
              capturedResume := s.capturedResume ++ [⟨effectivePc, forced⟩] })

/- ----------  MIFrame register banks  ---------- -/

/-- The register-count interface of a `JitCode` object (`num_regs_i` etc.). -/
structure JitCode where
  numRegsI : Nat
  numRegsR : Nat
  numRegsF : Nat
deriving DecidableEq

/-- One activation frame (`MIFrame`): three typed register banks.  The source
uses fixed 256-slot arrays; we model a bank as a list whose first `num_regs_X`
slots are the active registers. -/
structure MIFrame where
  jitcode : JitCode
  registersI : List Operand
  registersR : List Operand
  registersF : List Operand
deriving DecidableEq

/-- The loop `for i in range(count): if registers[i] is oldbox: registers[i] = newbox`:
replace `oldbox` by `newbox` in the first `count` slots of one bank. -/
def replace_in_bank (regs : List Operand) (count : Nat) (oldbox newbox : Operand) :
    List Operand :=
  (regs.take count).map (fun b => if b = oldbox then newbox else b) ++ regs.drop count

/-- `MIFrame.replace_active_box_in_frame(oldbox, newbox)`: dispatch on the type of
`oldbox` (`BoxInt` / `BoxPtr` / `BoxFloat`) and substitute it in the matching
register bank up to that bank's register count.  A `Const` argument is an
assertion failure in the source (`assert 0`); the model returns the frame
unchanged on that unreachable input. -/
def replace_active_box_in_frame (fr : MIFrame) (oldbox newbox : Operand) : MIFrame :=
  match oldbox with
  | .box .int _ _ =>
      { fr with registersI :=
          replace_in_bank fr.registersI fr.jitcode.numRegsI oldbox newbox }
  | .box .ref _ _ =>
      { fr with registersR :=
          replace_in_bank fr.registersR fr.jitcode.numRegsR oldbox newbox }
  | .box .float _ _ =>
      { fr with registersF :=
          replace_in_bank fr.registersF fr.jitcode.numRegsF oldbox newbox }
  | .const _ _ => fr

/- ===================================================================
   Theorems for claims C1, C2, C9
   =================================================================== -/

/-- Helper: substituting a box that does not occur in a list leaves it unchanged. -/
theorem map_subst_of_not_mem (oldbox newbox : Operand) (l : List Operand)
    (h : oldbox ∉ l) : l.map (fun b => if b = oldbox then newbox else b) = l := by
  induction l with
  | nil => rfl
  | cons a t ih =>
      simp only [List.mem_cons, not_or] at h
      have ha : a ≠ oldbox := fun he => h.1 he.symm
      simp only [List.map_cons, if_neg ha, ih h.2]

/-- C1: for every always-pure opcode, `execute_and_record` with all-constant
operands appends no operation record to the trace, returns the result as a
`Const` operand, and the result does not depend on the current trace, so two
calls with the same constant inputs yield identical result constants. -/
theorem execute_and_record_constant_folding (opnum : Nat) (descr : Option Nat)
    (argboxes : List Operand) (h h2 : List OpRecord)
    (hpure : rop_ALWAYS_PURE_FIRST ≤ opnum ∧ opnum ≤ rop_ALWAYS_PURE_LAST)
    (hconst : all_constants argboxes = true) :
    (execute_and_record opnum descr argboxes h).2 = h ∧
    (∃ k v, (execute_and_record opnum descr argboxes h).1 = some (Operand.const k v)) ∧
    (execute_and_record opnum descr argboxes h).1 =
      (execute_and_record opnum descr argboxes h2).1 := by
  unfold execute_and_record record_helper_pure
  rw [if_pos hpure, if_pos hpure, if_pos hconst, if_pos hconst]
  refine ⟨rfl, ?_, rfl⟩
  unfold executor_execute
  by_cases hadd : opnum = rop_INT_ADD
  · rw [if_pos hadd]; exact ⟨OpKind.int, argValue argboxes 0 + argValue argboxes 1, rfl⟩
  · rw [if_neg hadd]
    exact ⟨OpKind.int, Int.ofNat (opnum + descr.getD 0) + argValue argboxes 0, rfl⟩

/-- Witness for C1 at a concrete input: `INT_ADD` on the constants 5 and 3. -/
theorem execute_and_record_constant_folding_witness :
    (execute_and_record rop_INT_ADD none
        [Operand.const OpKind.int 5, Operand.const OpKind.int 3] []).2 = [] ∧
    (∃ k v, (execute_and_record rop_INT_ADD none
        [Operand.const OpKind.int 5, Operand.const OpKind.int 3] []).1 =
        some (Operand.const k v)) ∧
    (execute_and_record rop_INT_ADD none
        [Operand.const OpKind.int 5, Operand.const OpKind.int 3] []).1 =
      (execute_and_record rop_INT_ADD none
        [Operand.const OpKind.int 5, Operand.const OpKind.int 3]
        [⟨0, [], none, none⟩]).1 :=
  execute_and_record_constant_folding rop_INT_ADD none
    [Operand.const OpKind.int 5, Operand.const OpKind.int 3] []
    [⟨0, [], none, none⟩] (by decide) (by decide)

/-- C2: `generate_guard` on a `Const` tested operand records no guard operation,
captures no resume snapshot, and returns with the state unchanged. -/
theorem generate_guard_constant_no_emit (s : GuardState) (opnum : Nat)
    (k : OpKind) (v : Int) (extraargs : List Operand) (resumepc : Int) :
    generate_guard s opnum (some (Operand.const k v)) extraargs resumepc = (none, s) := by
  unfold generate_guard
  rfl

/-- C9: `replace_active_box_in_frame` substitutes `newbox` for every register slot
physically identical to `oldbox` and leaves every other slot unchanged, across all
three register banks.  The hypotheses are the source's own invariants: `oldbox` is
a box (not a `Const`), every slot of a bank holds an operand of that bank's kind,
and `oldbox` does not occur beyond the active register count of its own bank
(the source asserts `oldbox not in registers[count:]`). -/
theorem replace_active_box_in_frame_subst (fr : MIFrame) (oldbox newbox : Operand)
    (hbox : oldbox.isConst = false)
    (htypedI : ∀ b ∈ fr.registersI, Operand.kind b = OpKind.int)
    (htypedR : ∀ b ∈ fr.registersR, Operand.kind b = OpKind.ref)
    (htypedF : ∀ b ∈ fr.registersF, Operand.kind b = OpKind.float)
    (hhighI : oldbox ∉ fr.registersI.drop fr.jitcode.numRegsI)
    (hhighR : oldbox ∉ fr.registersR.drop fr.jitcode.numRegsR)
    (hhighF : oldbox ∉ fr.registersF.drop fr.jitcode.numRegsF) :
    (replace_active_box_in_frame fr oldbox newbox).registersI =
      fr.registersI.map (fun b => if b = oldbox then newbox else b) ∧
    (replace_active_box_in_frame fr oldbox newbox).registersR =
      fr.registersR.map (fun b => if b = oldbox then newbox else b) ∧
    (replace_active_box_in_frame fr oldbox newbox).registersF =
      fr.registersF.map (fun b => if b = oldbox then newbox else b) := by
  have hbank : ∀ (regs : List Operand) (count : Nat), oldbox ∉ regs.drop count →
      replace_in_bank regs count oldbox newbox =
        regs.map (fun b => if b = oldbox then newbox else b) := by
    intro regs count hdrop
    unfold replace_in_bank
    conv_rhs => rw [← List.take_append_drop count regs, List.map_append]
    rw [map_subst_of_not_mem oldbox newbox _ hdrop]
  have hnotmem : ∀ (regs : List Operand) (k : OpKind),
      (∀ b ∈ regs, Operand.kind b = k) → Operand.kind oldbox ≠ k → oldbox ∉ regs := by
    intro regs k htyped hk hmem
    exact hk (htyped oldbox hmem)
  match hob : oldbox with
  | .const _ _ => simp [Operand.isConst] at hbox
  | .box .int i v =>
      refine ⟨?_, ?_, ?_⟩
      · simpa [replace_active_box_in_frame] using
          hbank fr.registersI fr.jitcode.numRegsI (hob ▸ hhighI)
      · have hnm := hnotmem fr.registersR OpKind.ref htypedR (by simp [Operand.kind])
        simp [replace_active_box_in_frame, map_subst_of_not_mem _ newbox _ hnm]
      · have hnm := hnotmem fr.registersF OpKind.float htypedF (by simp [Operand.kind])
        simp [replace_active_box_in_frame, map_subst_of_not_mem _ newbox _ hnm]
  | .box .ref i v =>
      refine ⟨?_, ?_, ?_⟩
      · have hnm := hnotmem fr.registersI OpKind.int htypedI (by simp [Operand.kind])
        simp [replace_active_box_in_frame, map_subst_of_not_mem _ newbox _ hnm]
      · simpa [replace_active_box_in_frame] using
          hbank fr.registersR fr.jitcode.numRegsR (hob ▸ hhighR)
      · have hnm := hnotmem fr.registersF OpKind.float htypedF (by simp [Operand.kind])
        simp [replace_active_box_in_frame, map_subst_of_not_mem _ newbox _ hnm]
  | .box .float i v =>
      refine ⟨?_, ?_, ?_⟩
      · have hnm := hnotmem fr.registersI OpKind.int htypedI (by simp [Operand.kind])
        simp [replace_active_box_in_frame, map_subst_of_not_mem _ newbox _ hnm]
      · have hnm := hnotmem fr.registersR OpKind.ref htypedR (by simp [Operand.kind])
        simp [replace_active_box_in_frame, map_subst_of_not_mem _ newbox _ hnm]
      · simpa [replace_active_box_in_frame] using
          hbank fr.registersF fr.jitcode.numRegsF (hob ▸ hhighF)

/-- Witness for C9 at a concrete frame: an int box appearing twice in the integer
bank (once in the active area) is substituted there; the other banks keep their
contents. -/
theorem replace_active_box_in_frame_subst_witness :
    (replace_active_box_in_frame
        ⟨⟨2, 1, 0⟩,
         [Operand.box OpKind.int 7 5, Operand.box OpKind.int 8 6, Operand.const OpKind.int 1],
         [Operand.box OpKind.ref 9 0], []⟩
        (Operand.box OpKind.int 7 5) (Operand.const OpKind.int 5)).registersI =
      [Operand.box OpKind.int 7 5, Operand.box OpKind.int 8 6,
       Operand.const OpKind.int 1].map
        (fun b => if b = Operand.box OpKind.int 7 5 then Operand.const OpKind.int 5 else b) ∧
    (replace_active_box_in_frame
        ⟨⟨2, 1, 0⟩,
         [Operand.box OpKind.int 7 5, Operand.box OpKind.int 8 6, Operand.const OpKind.int 1],
         [Operand.box OpKind.ref 9 0], []⟩
        (Operand.box OpKind.int 7 5) (Operand.const OpKind.int 5)).registersR =
      [Operand.box OpKind.ref 9 0].map
        (fun b => if b = Operand.box OpKind.int 7 5 then Operand.const OpKind.int 5 else b) ∧
    (replace_active_box_in_frame
        ⟨⟨2, 1, 0⟩,
         [Operand.box OpKind.int 7 5, Operand.box OpKind.int 8 6, Operand.const OpKind.int 1],
         [Operand.box OpKind.ref 9 0], []⟩
        (Operand.box OpKind.int 7 5) (Operand.const OpKind.int 5)).registersF =
      ([] : List Operand).map
        (fun b => if b = Operand.box OpKind.int 7 5 then Operand.const OpKind.int 5 else b) :=
  replace_active_box_in_frame_subst
    ⟨⟨2, 1, 0⟩,
     [Operand.box OpKind.int 7 5, Operand.box OpKind.int 8 6, Operand.const OpKind.int 1],
     [Operand.box OpKind.ref 9 0], []⟩
    (Operand.box OpKind.int 7 5) (Operand.const OpKind.int 5)
    (by decide) (by decide) (by decide) (by decide) (by decide) (by decide) (by decide)

/- ===================================================================
   Part 2: the MiniMark garbage collector (`minimark.py`)
   =================================================================== -/

/-- The slice of `MiniMarkGC` state governing nursery allocation: the nursery
byte range `[nursery, nursery_top)` with bump pointer `nursery_free`, the
total memory used outside the nursery, and the next major-collection threshold.
Addresses and sizes are byte counts modelled as `Nat`. -/
structure NurseryState where
  nursery : Nat
  nurserySize : Nat
  nurseryFree : Nat
  nurseryTop : Nat
  totalMemoryUsed : Nat
  nextMajorCollectionThreshold : Nat
  debugAlwaysDoMinorCollect : Bool
deriving DecidableEq

/-- `MiniMarkGC.collect_and_reserve(totalsize)`: run a minor collection; if the
total memory used now exceeds the major-collection threshold, run a major
collection too (which may refill part of the nursery by running finalizers),
and if the nursery is then too full for `totalsize`, force a second minor
collection; finally reserve `totalsize` bytes by bumping `nursery_free`.
The minor and major collectors act on the rest of the GC state as well; here
they are abstract parameters, constrained in the theorem by exactly what the
source guarantees about the nursery fields. -/
def collect_and_reserve (minorCollection majorCollection : NurseryState → NurseryState)
    (s : NurseryState) (totalsize : Nat) : Nat × NurseryState :=
  let s1 := minorCollection s
  let s2 :=
    if s1.nextMajorCollectionThreshold < s1.totalMemoryUsed then
      let sM := majorCollection s1
      if sM.nurseryTop < sM.nurseryFree + totalsize then minorCollection sM else sM
    else s1
  let result := s2.nurseryFree
  let s3 := { s2 with nurseryFree := result + totalsize }
  let s4 := if s3.debugAlwaysDoMinorCollect then
              { s3 with nurseryFree := s3.nurseryTop }
            else s3
  (result, s4)

/-- The nursery fast path shared by `malloc_fixedsize_clear` and
`malloc_varsize_clear` (lines 397-400 resp. 459-462): `result = nursery_free;
nursery_free = result + totalsize; if nursery_free > nursery_top: result =
collect_and_reserve(totalsize)`. -/
def malloc_nursery_reserve (minorCollection majorCollection : NurseryState → NurseryState)
    (s : NurseryState) (totalsize : Nat) : Nat × NurseryState :=
  let result := s.nurseryFree
  let s1 := { s with nurseryFree := result + totalsize }
  if s1.nurseryTop < s1.nurseryFree then
    collect_and_reserve minorCollection majorCollection s1 totalsize
  else
    (result, s1)

/-- Helper for C3: `collect_and_reserve` restores `start ≤ free ≤ top` whenever
the minor collector resets the bump pointer to the nursery start and neither
collector moves the nursery boundaries. -/
theorem collect_and_reserve_bounds
    (minorCollection majorCollection : NurseryState → NurseryState)
    (s : NurseryState) (totalsize : Nat)
    (hminor : ∀ t, (minorCollection t).nurseryFree = t.nursery ∧
        (minorCollection t).nursery = t.nursery ∧
        (minorCollection t).nurseryTop = t.nurseryTop)
    (hmajor : ∀ t, (majorCollection t).nursery = t.nursery ∧
        (majorCollection t).nurseryTop = t.nurseryTop ∧
        t.nursery ≤ (majorCollection t).nurseryFree)
    (htop : s.nurseryTop = s.nursery + s.nurserySize)
    (hsize : totalsize ≤ s.nurserySize) :
    (collect_and_reserve minorCollection majorCollection s totalsize).2.nursery ≤
      (collect_and_reserve minorCollection majorCollection s totalsize).2.nurseryFree ∧
    (collect_and_reserve minorCollection majorCollection s totalsize).2.nurseryFree ≤
      (collect_and_reserve minorCollection majorCollection s totalsize).2.nurseryTop := by
  unfold collect_and_reserve
  obtain ⟨hm1, hm2, hm3⟩ := hminor s
  set s1 := minorCollection s with hs1
  by_cases hmaj : s1.nextMajorCollectionThreshold < s1.totalMemoryUsed
  · simp only [if_pos hmaj]
    obtain ⟨hM1, hM2, hM3⟩ := hmajor s1
    set sM := majorCollection s1 with hsM
    by_cases hfull : sM.nurseryTop < sM.nurseryFree + totalsize
    · simp only [if_pos hfull]
      obtain ⟨hn1, hn2, hn3⟩ := hminor sM
      by_cases hdbg : (minorCollection sM).debugAlwaysDoMinorCollect
      · simp only [if_pos hdbg]
        exact ⟨by omega, by omega⟩
      · simp only [if_neg hdbg]
        exact ⟨by omega, by omega⟩
    · simp only [if_neg hfull]
      push_neg at hfull
      by_cases hdbg : sM.debugAlwaysDoMinorCollect
      · simp only [if_pos hdbg]
        exact ⟨by omega, by omega⟩
      · simp only [if_neg hdbg]
        exact ⟨by omega, by omega⟩
  · simp only [if_neg hmaj]
    by_cases hdbg : s1.debugAlwaysDoMinorCollect
    · simp only [if_pos hdbg]
      exact ⟨by omega, by omega⟩
    · simp only [if_neg hdbg]
      exact ⟨by omega, by omega⟩

/-- C3: the nursery invariant `start ≤ free ≤ top` holds after
`collect_and_reserve` returns having reserved `totalsize` bytes, and likewise
after the nursery allocation fast path (so no allocation hands out memory past
the nursery top), provided the minor collector resets `nursery_free` to the
nursery start, neither collector moves the nursery boundaries or puts `free`
below `start`, `top = start + size`, the invariant held before the call, and
the request fits in the nursery (`totalsize ≤ nursery_size`, guaranteed by the
`nonlarge_max` bound of the malloc routines). -/
theorem collect_and_reserve_nursery_invariant
    (minorCollection majorCollection : NurseryState → NurseryState)
    (s : NurseryState) (totalsize : Nat)
    (hminor : ∀ t, (minorCollection t).nurseryFree = t.nursery ∧
        (minorCollection t).nursery = t.nursery ∧
        (minorCollection t).nurseryTop = t.nurseryTop)
    (hmajor : ∀ t, (majorCollection t).nursery = t.nursery ∧
        (majorCollection t).nurseryTop = t.nurseryTop ∧
        t.nursery ≤ (majorCollection t).nurseryFree)
    (htop : s.nurseryTop = s.nursery + s.nurserySize)
    (hfree : s.nursery ≤ s.nurseryFree)
    (hsize : totalsize ≤ s.nurserySize) :
    ((collect_and_reserve minorCollection majorCollection s totalsize).2.nursery ≤
       (collect_and_reserve minorCollection majorCollection s totalsize).2.nurseryFree ∧
     (collect_and_reserve minorCollection majorCollection s totalsize).2.nurseryFree ≤
       (collect_and_reserve minorCollection majorCollection s totalsize).2.nurseryTop) ∧
    ((malloc_nursery_reserve minorCollection majorCollection s totalsize).2.nursery ≤
       (malloc_nursery_reserve minorCollection majorCollection s totalsize).2.nurseryFree ∧
     (malloc_nursery_reserve minorCollection majorCollection s totalsize).2.nurseryFree ≤
       (malloc_nursery_reserve minorCollection majorCollection s totalsize).2.nurseryTop) := by
  refine ⟨collect_and_reserve_bounds minorCollection majorCollection s totalsize
    hminor hmajor htop hsize, ?_⟩
  unfold malloc_nursery_reserve
  by_cases hovf : s.nurseryTop < s.nurseryFree + totalsize
  · simp only [if_pos hovf]
    exact collect_and_reserve_bounds minorCollection majorCollection
      { s with nurseryFree := s.nurseryFree + totalsize } totalsize hminor hmajor htop hsize
  · simp only [if_neg hovf]
    push_neg at hovf
    exact ⟨Nat.le_trans hfree (Nat.le_add_right _ _), hovf⟩

/-- Witness for C3 at a concrete state and concrete collectors: the state starts
with a full nursery, the minor collector empties it. -/
theorem collect_and_reserve_nursery_invariant_witness :
    ((collect_and_reserve (fun t => { t with nurseryFree := t.nursery })
        (fun t => { t with nurseryFree := t.nursery })
        ⟨0, 32, 30, 32, 100, 50, false⟩ 8).2.nursery ≤
       (collect_and_reserve (fun t => { t with nurseryFree := t.nursery })
        (fun t => { t with nurseryFree := t.nursery })
        ⟨0, 32, 30, 32, 100, 50, false⟩ 8).2.nurseryFree ∧
     (collect_and_reserve (fun t => { t with nurseryFree := t.nursery })
        (fun t => { t with nurseryFree := t.nursery })
        ⟨0, 32, 30, 32, 100, 50, false⟩ 8).2.nurseryFree ≤
       (collect_and_reserve (fun t => { t with nurseryFree := t.nursery })
        (fun t => { t with nurseryFree := t.nursery })
        ⟨0, 32, 30, 32, 100, 50, false⟩ 8).2.nurseryTop) ∧
    ((malloc_nursery_reserve (fun t => { t with nurseryFree := t.nursery })
        (fun t => { t with nurseryFree := t.nursery })
        ⟨0, 32, 30, 32, 100, 50, false⟩ 8).2.nursery ≤
       (malloc_nursery_reserve (fun t => { t with nurseryFree := t.nursery })
        (fun t => { t with nurseryFree := t.nursery })
        ⟨0, 32, 30, 32, 100, 50, false⟩ 8).2.nurseryFree ∧
     (malloc_nursery_reserve (fun t => { t with nurseryFree := t.nursery })
        (fun t => { t with nurseryFree := t.nursery })
        ⟨0, 32, 30, 32, 100, 50, false⟩ 8).2.nurseryFree ≤
       (malloc_nursery_reserve (fun t => { t with nurseryFree := t.nursery })
        (fun t => { t with nurseryFree := t.nursery })
        ⟨0, 32, 30, 32, 100, 50, false⟩ 8).2.nurseryTop) :=
  collect_and_reserve_nursery_invariant
    (fun t => { t with nurseryFree := t.nursery })
    (fun t => { t with nurseryFree := t.nursery })
    ⟨0, 32, 30, 32, 100, 50, false⟩ 8
    (fun t => ⟨rfl, rfl, rfl⟩) (fun t => ⟨rfl, rfl, Nat.le_refl _⟩)
    (by decide) (by decide) (by decide)

/- ----------  allocation routing (malloc_fixedsize_clear / malloc_varsize_clear /
               malloc_fixedsize_nonmovable)  ---------- -/

/-- Where an allocation request is served from: the nursery bump pointer, or
`external_malloc` (the ArenaCollection / raw-malloc heap). -/
inductive AllocPath
  | nursery
  | external
deriving DecidableEq

/-- The routing decision of `MiniMarkGC.malloc_fixedsize_clear`: a finalizer-bearing
object goes to `external_malloc`; an object whose total size (header included)
exceeds `nonlarge_max` goes to `external_malloc`; everything else is served from
the nursery. -/
def malloc_fixedsize_clear_path (sizeGcHeader size nonlargeMax : Nat)
    (needsFinalizer : Bool) : AllocPath :=
  let totalsize := sizeGcHeader + size
  if needsFinalizer then AllocPath.external
  else if nonlargeMax < totalsize then AllocPath.external
  else AllocPath.nursery

/-- The `too_many_items` test of `MiniMarkGC.malloc_varsize_clear`: when
`itemsize` is zero the fixed part alone is compared against the limit; otherwise
the maximal admissible length `maxlength = (nlm - nonvarsize) // itemsize` is
computed with Python floor division (possibly negative when even the fixed part
is too large) and compared against the requested length. -/
def varsize_too_many_items (sizeGcHeader size itemsize length : Nat) (nlm : Int) : Bool :=
  let nonvarsize : Int := (sizeGcHeader : Int) + (size : Int)
  if itemsize = 0 then decide (nlm < nonvarsize)
  else decide (Int.fdiv (nlm - nonvarsize) (itemsize : Int) < (length : Int))

/-- The routing decision of `MiniMarkGC.malloc_varsize_clear`: allocate externally
when the requested length exceeds the maximal length that keeps the object below
`nonlarge_max` (or `nonlarge_gcptrs_max` when the variable part contains GC
pointers); otherwise serve from the nursery. -/
def malloc_varsize_clear_path (sizeGcHeader size itemsize length : Nat)
    (hasGcptrInVarsize : Bool) (nonlargeMax nonlargeGcptrsMax : Nat) : AllocPath :=
  let nlm : Int := if hasGcptrInVarsize then (nonlargeGcptrsMax : Int) else (nonlargeMax : Int)
  if varsize_too_many_items sizeGcHeader size itemsize length nlm then AllocPath.external
  else AllocPath.nursery

/-- The source's `too_many_items` test is exactly "the total object size exceeds
the applicable limit". -/
theorem varsize_too_many_items_iff (sizeGcHeader size itemsize length : Nat) (nlm : Int) :
    varsize_too_many_items sizeGcHeader size itemsize length nlm = true ↔
    nlm < (sizeGcHeader : Int) + (size : Int) + (itemsize : Int) * (length : Int) := by
  unfold varsize_too_many_items
  by_cases hz : itemsize = 0
  · subst hz
    simp
  · have hpos : (0 : Int) < (itemsize : Int) := by
      exact_mod_cast Nat.pos_of_ne_zero hz
    rw [if_neg hz, decide_eq_true_eq, Int.fdiv_eq_ediv _ (le_of_lt hpos),
        ← not_le, ← not_le, Int.le_ediv_iff_mul_le hpos]
    have hcomm : (length : Int) * (itemsize : Int) = (itemsize : Int) * (length : Int) :=
      mul_comm _ _
    constructor
    · intro hc hle; exact hc (by linarith)
    · intro hc hle; exact hc (by linarith)

/-- The routing of `MiniMarkGC.malloc_fixedsize_nonmovable` (and its varsize
sibling): they call `external_malloc` unconditionally. -/
def malloc_fixedsize_nonmovable_path : AllocPath := AllocPath.external

/-- C4: allocation requests needing a finalizer, or whose total size exceeds the
applicable large-object threshold, or explicitly requested as non-movable, bypass
the nursery and go to `external_malloc`; all other requests are served from the
nursery.  For the varsize case, the source's `too_many_items` test is proved
exactly equivalent to "total size exceeds the threshold". -/
theorem malloc_routing_external_vs_nursery (sizeGcHeader size itemsize length
    nonlargeMax nonlargeGcptrsMax : Nat) (needsFinalizer hasGcptrInVarsize : Bool) :
    (needsFinalizer = true →
      malloc_fixedsize_clear_path sizeGcHeader size nonlargeMax needsFinalizer =
        AllocPath.external) ∧
    (nonlargeMax < sizeGcHeader + size →
      malloc_fixedsize_clear_path sizeGcHeader size nonlargeMax needsFinalizer =
        AllocPath.external) ∧
    (needsFinalizer = false → sizeGcHeader + size ≤ nonlargeMax →
      malloc_fixedsize_clear_path sizeGcHeader size nonlargeMax needsFinalizer =
        AllocPath.nursery) ∧
    (malloc_varsize_clear_path sizeGcHeader size itemsize length hasGcptrInVarsize
        nonlargeMax nonlargeGcptrsMax = AllocPath.external ↔
      (if hasGcptrInVarsize then (nonlargeGcptrsMax : Int) else (nonlargeMax : Int)) <
        (sizeGcHeader : Int) + (size : Int) + (itemsize : Int) * (length : Int)) ∧
    malloc_fixedsize_nonmovable_path = AllocPath.external := by
  refine ⟨?_, ?_, ?_, ?_, rfl⟩
  · intro hf; simp [malloc_fixedsize_clear_path, hf]
  · intro hbig
    by_cases hf : needsFinalizer <;>
      simp [malloc_fixedsize_clear_path, hf, if_pos hbig]
  · intro hf hsmall
    simp [malloc_fixedsize_clear_path, hf, Nat.not_lt.mpr hsmall]
  · unfold malloc_varsize_clear_path
    have hchar := varsize_too_many_items_iff sizeGcHeader size itemsize length
      (if hasGcptrInVarsize then (nonlargeGcptrsMax : Int) else (nonlargeMax : Int))
    by_cases hb : varsize_too_many_items sizeGcHeader size itemsize length
        (if hasGcptrInVarsize then (nonlargeGcptrsMax : Int) else (nonlargeMax : Int)) = true
    · simp only [hb, if_true]
      exact ⟨fun _ => hchar.mp hb, fun _ => trivial⟩
    · rw [Bool.not_eq_true] at hb
      simp only [hb, Bool.false_eq_true, if_false]
      constructor
      · intro hc; exact absurd hc (by decide)
      · intro hr
        have hx := hchar.mpr hr
        rw [hb] at hx
        exact absurd hx (by decide)

/-- Witness for C4 at concrete sizes: a finalizer-bearing 3-word object is
external; the same object without a finalizer fits under the 8-word threshold
and is served from the nursery; an array of 100 4-word items is external; a
non-movable request is external. -/
theorem malloc_routing_external_vs_nursery_witness :
    malloc_fixedsize_clear_path 1 2 8 true = AllocPath.external ∧
    malloc_fixedsize_clear_path 1 2 8 false = AllocPath.nursery ∧
    malloc_varsize_clear_path 1 2 4 100 false 8 10 = AllocPath.external ∧
    malloc_fixedsize_nonmovable_path = AllocPath.external :=
  ⟨(malloc_routing_external_vs_nursery 1 2 4 100 8 10 true false).1 rfl,
   (malloc_routing_external_vs_nursery 1 2 4 100 8 10 false false).2.2.1 rfl (by decide),
   ((malloc_routing_external_vs_nursery 1 2 4 100 8 10 true false).2.2.2.1).mpr (by decide),
   (malloc_routing_external_vs_nursery 1 2 4 100 8 10 true false).2.2.2.2⟩

/- ----------  object headers and the write barrier  ---------- -/

/-- A GC object header (`HDR`): the `tid` word holds a 16-bit typeid plus the
`GCFLAG_xxx` flag bits, modelled as named Booleans.  `tid & GCFLAG_X` becomes a
field read; `tid |= GCFLAG_X` and `tid &= ~GCFLAG_X` become field updates. -/
structure HDR where
  typeid : Nat
  noYoungPtrs : Bool
  noHeapPtrs : Bool
  visited : Bool
  hasShadow : Bool
  finalizationOrdering : Bool
  hasCards : Bool
  cardsSet : Bool
deriving DecidableEq

/-- The slice of `MiniMarkGC` state touched by the write barrier: the nursery
bounds, the headers of all heap objects (indexed by address), the remembered set
`old_objects_pointing_to_young` and the list `prebuilt_root_objects`. -/
structure WriteBarrierState where
  nursery : Nat
  nurseryTop : Nat
  headers : Nat → HDR
  oldObjectsPointingToYoung : List Nat
  prebuiltRootObjects : List Nat

/-- `MiniMarkGC.appears_to_be_in_nursery(addr)`: `nursery <= addr < nursery_top`
(in the translated-to-C build the validity pre-check disappears). -/
def appears_to_be_in_nursery (s : WriteBarrierState) (addr : Nat) : Bool :=
  decide (s.nursery ≤ addr ∧ addr < s.nurseryTop)

/-- `remember_young_pointer(addr_struct, newvalue)` (the slow path installed by
`_init_writebarrier_logic`): if `newvalue` appears to point into the nursery,
append `addr_struct` to `old_objects_pointing_to_young` and clear its
`GCFLAG_NO_YOUNG_PTRS`; then, if `addr_struct` still has `GCFLAG_NO_HEAP_PTRS`
(a prebuilt object written to for the first time), clear that flag and append it
to `prebuilt_root_objects`. -/
def remember_young_pointer (s : WriteBarrierState) (addrStruct newvalue : Nat) :
    WriteBarrierState :=
  let s1 :=
    if appears_to_be_in_nursery s newvalue then
      { s with
        oldObjectsPointingToYoung := s.oldObjectsPointingToYoung ++ [addrStruct],
        headers := fun a =>
          if a = addrStruct then { s.headers a with noYoungPtrs := false }
          else s.headers a }
    else s
  if (s1.headers addrStruct).noHeapPtrs then
    { s1 with
      headers := fun a =>
        if a = addrStruct then { s1.headers a with noHeapPtrs := false }
        else s1.headers a,
      prebuiltRootObjects := s1.prebuiltRootObjects ++ [addrStruct] }
  else s1

/-- `MiniMarkGC.write_barrier(newvalue, addr_struct)`: the fast path tests
`GCFLAG_NO_YOUNG_PTRS` and calls `remember_young_pointer` only when it is set. -/
def write_barrier (s : WriteBarrierState) (newvalue addrStruct : Nat) :
    WriteBarrierState :=
  if (s.headers addrStruct).noYoungPtrs then
    remember_young_pointer s addrStruct newvalue
  else s

/-- C5: when the target object has `GCFLAG_NO_YOUNG_PTRS` set, a write observed
by `write_barrier` with a nursery-pointing new value clears that flag and appends
the target to the remembered set `old_objects_pointing_to_young`; moreover the
first write into a prebuilt object (`GCFLAG_NO_HEAP_PTRS` set) clears that flag
and registers the object in `prebuilt_root_objects`. -/
theorem write_barrier_remembered_set (s : WriteBarrierState) (newvalue target : Nat)
    (h1 : (s.headers target).noYoungPtrs = true) :
    (appears_to_be_in_nursery s newvalue = true →
       ((write_barrier s newvalue target).headers target).noYoungPtrs = false ∧
       target ∈ (write_barrier s newvalue target).oldObjectsPointingToYoung) ∧
    ((s.headers target).noHeapPtrs = true →
       ((write_barrier s newvalue target).headers target).noHeapPtrs = false ∧
       target ∈ (write_barrier s newvalue target).prebuiltRootObjects) := by
  unfold write_barrier remember_young_pointer
  constructor
  · intro hyoung
    by_cases hheap : (s.headers target).noHeapPtrs = true
    · simp [h1, hyoung, hheap]
    · rw [Bool.not_eq_true] at hheap
      simp [h1, hyoung, hheap]
  · intro hheap
    by_cases hyoung : appears_to_be_in_nursery s newvalue = true
    · simp [h1, hyoung, hheap]
    · rw [Bool.not_eq_true] at hyoung
      simp [h1, hyoung, hheap]

/-- Witness for C5: a prebuilt object at address 100 (both `NO_YOUNG_PTRS` and
`NO_HEAP_PTRS` set) written with a pointer to nursery address 5: both flags get
cleared and the object lands in both lists. -/
theorem write_barrier_remembered_set_witness :
    ((write_barrier
        ⟨0, 32, fun _ => ⟨7, true, true, false, false, false, false, false⟩, [], []⟩
        5 100).headers 100).noYoungPtrs = false ∧
    100 ∈ (write_barrier
        ⟨0, 32, fun _ => ⟨7, true, true, false, false, false, false, false⟩, [], []⟩
        5 100).oldObjectsPointingToYoung ∧
    ((write_barrier
        ⟨0, 32, fun _ => ⟨7, true, true, false, false, false, false, false⟩, [], []⟩
        5 100).headers 100).noHeapPtrs = false ∧
    100 ∈ (write_barrier
        ⟨0, 32, fun _ => ⟨7, true, true, false, false, false, false, false⟩, [], []⟩
        5 100).prebuiltRootObjects :=
  ⟨((write_barrier_remembered_set
      ⟨0, 32, fun _ => ⟨7, true, true, false, false, false, false, false⟩, [], []⟩
      5 100 rfl).1 (by decide)).1,
   ((write_barrier_remembered_set
      ⟨0, 32, fun _ => ⟨7, true, true, false, false, false, false, false⟩, [], []⟩
      5 100 rfl).1 (by decide)).2,
   ((write_barrier_remembered_set
      ⟨0, 32, fun _ => ⟨7, true, true, false, false, false, false, false⟩, [], []⟩
      5 100 rfl).2 rfl).1,
   ((write_barrier_remembered_set
      ⟨0, 32, fun _ => ⟨7, true, true, false, false, false, false, false⟩, [], []⟩
      5 100 rfl).2 rfl).2⟩

/- ----------  minor collection: evacuation and forwarding (_trace_drag_out)  ---------- -/

/-- The words of a heap object after its header: either live field contents, or
the forwarding address installed by `_trace_drag_out` (the `FORWARDSTUB`). -/
inductive Payload
  | pfields (xs : List Int)
  | forw (a : Nat)
deriving DecidableEq

/-- One heap object: its header word and its payload.  The memory is modelled at
object granularity, indexed by object address (= header address + one header
word, `size_gc_header = 1`). -/
structure ObjCell where
  hdr : HDR
  payload : Payload
deriving DecidableEq

/-- The slice of `MiniMarkGC` state used by `_trace_drag_out`: nursery bounds,
object memory, the shadow map (`young_objects_shadows`, for objects whose id or
identityhash was taken), the bump pointer of `_malloc_out_of_nursery`
(abstracting `ac.malloc` / raw-malloc, always returning fresh addresses past
`nextFreeOld`), and the remembered set. -/
structure MinorHeapState where
  nursery : Nat
  nurseryTop : Nat
  mem : Nat → ObjCell
  youngObjectsShadows : Nat → Option Nat
  nextFreeOld : Nat
  oldObjectsPointingToYoung : List Nat

/-- `MiniMarkGC.is_in_nursery(addr)`. -/
def is_in_nursery (s : MinorHeapState) (addr : Nat) : Bool :=
  decide (s.nursery ≤ addr ∧ addr < s.nurseryTop)

/-- `MiniMarkGC.is_forwarded(obj)`: checks the `GCFLAG_FINALIZATION_ORDERING`
bit, which can never be set on a live young object -- except if the header was
overwritten with the sentinel `tid = -42` (which has all flag bits set). -/
def is_forwarded (s : MinorHeapState) (obj : Nat) : Bool :=
  (s.mem obj).hdr.finalizationOrdering

/-- `MiniMarkGC.get_forwarding_address(obj)`: read the `forw` field of the
forwarding stub (garbage on a non-forwarded object, as in the source). -/
def get_forwarding_address (s : MinorHeapState) (obj : Nat) : Nat :=
  match (s.mem obj).payload with
  | Payload.forw a => a
  | Payload.pfields _ => 0

/-- The sentinel header installed on an evacuated nursery object: the source
stores `tid = -42`, a word with all flag bits set; only its
`GCFLAG_FINALIZATION_ORDERING` bit is ever read back (by `is_forwarded`). -/
def hdrMinus42 : HDR := ⟨0, true, true, true, true, true, true, true⟩

/-- `size_gc_header + self.get_size(obj)` in header words: one header word plus
the payload words. -/
def cellTotalSize (c : ObjCell) : Nat :=
  1 + (match c.payload with
       | Payload.pfields xs => xs.length
       | Payload.forw _ => 1)

/-- The copy-and-forward step of `_trace_drag_out`: `raw_memcopy` the object
(header plus payload) to `newobj`, overwrite the old location with the sentinel
header and the forwarding address, and append `newobj` to
`old_objects_pointing_to_young` (it may itself contain further young pointers). -/
def evacuate_copy (s : MinorHeapState) (obj newobj : Nat) : MinorHeapState :=
  { s with
    mem := fun a =>
      if a = obj then ⟨hdrMinus42, Payload.forw newobj⟩
      else if a = newobj then s.mem obj
      else s.mem a,
    oldObjectsPointingToYoung := s.oldObjectsPointingToYoung ++ [newobj] }

/-- `MiniMarkGC._trace_drag_out(root, ignored)`: given the address stored in a
root, return the (possibly updated) address and the new state.  An address
outside the nursery is left alone; an already-forwarded object resolves through
its forwarding address without copying; otherwise the object is copied out, to a
fresh non-movable location in the common case, or into its pre-reserved shadow
when `GCFLAG_HAS_SHADOW` is set (the flag being cleared before the copy). -/
def trace_drag_out (s : MinorHeapState) (rootval : Nat) : Nat × MinorHeapState :=
  if ¬ is_in_nursery s rootval then (rootval, s)
  else if is_forwarded s rootval then (get_forwarding_address s rootval, s)
  else if (s.mem rootval).hdr.hasShadow = false then
    let newobj := s.nextFreeOld + 1
    (newobj,
     evacuate_copy
       { s with nextFreeOld := s.nextFreeOld + cellTotalSize (s.mem rootval) }
       rootval newobj)
  else
    let newobj := (s.youngObjectsShadows rootval).getD 0
    let scleared :=
      { s with mem := fun a =>
          if a = rootval then
            ⟨{ (s.mem a).hdr with hasShadow := false }, (s.mem a).payload⟩
          else s.mem a }
    (newobj, evacuate_copy scleared rootval newobj)

/-- `collect_roots_in_nursery` restricted to a given list of root values:
`walk_roots` applies `_trace_drag_out1` to each root in turn, threading the
heap state. -/
def drag_out_roots : MinorHeapState → List Nat → List Nat × MinorHeapState
  | s, [] => ([], s)
  | s, r :: rest =>
    let p := trace_drag_out s r
    let q := drag_out_roots p.2 rest
    (p.1 :: q.1, q.2)

/-- First evacuation of a live, unshadowed nursery object: it is copied to the
next fresh old address and the old location becomes a forwarding stub. -/
theorem trace_drag_out_first (s : MinorHeapState) (obj : Nat)
    (hin : is_in_nursery s obj = true)
    (hford : is_forwarded s obj = false)
    (hshadow : (s.mem obj).hdr.hasShadow = false) :
    trace_drag_out s obj = (s.nextFreeOld + 1,
      evacuate_copy { s with nextFreeOld := s.nextFreeOld + cellTotalSize (s.mem obj) }
        obj (s.nextFreeOld + 1)) := by
  unfold trace_drag_out
  rw [if_neg (by simp [hin]), if_neg (by simp [hford]), if_pos hshadow]

/-- A later visit to a forwarded nursery object resolves through the forwarding
address and does not copy again. -/
theorem trace_drag_out_forwarded (t : MinorHeapState) (obj n : Nat)
    (hin : is_in_nursery t obj = true)
    (hmem : t.mem obj = ⟨hdrMinus42, Payload.forw n⟩) :
    trace_drag_out t obj = (n, t) := by
  unfold trace_drag_out
  rw [if_neg (by simp [hin]), if_pos (by simp [is_forwarded, hmem, hdrMinus42])]
  simp [get_forwarding_address, hmem]

/-- C6: a nursery object `obj` reachable from two roots is evacuated once: after
dragging both roots out of the nursery, both hold the same new address (the
fresh old location `nextFreeOld + 1`), that address lies outside the nursery,
its contents equal the object's pre-collection header and fields
field-for-field, and the old nursery location holds the sentinel `-42` header
plus the forwarding address. -/
theorem trace_drag_out_forwarding (s : MinorHeapState) (obj : Nat) (h0 : HDR)
    (xs : List Int)
    (hin : s.nursery ≤ obj ∧ obj < s.nurseryTop)
    (hcell : s.mem obj = ⟨h0, Payload.pfields xs⟩)
    (hford : h0.finalizationOrdering = false)
    (hshadow : h0.hasShadow = false)
    (hfresh : s.nurseryTop ≤ s.nextFreeOld) :
    (drag_out_roots s [obj, obj]).1 = [s.nextFreeOld + 1, s.nextFreeOld + 1] ∧
    is_in_nursery (drag_out_roots s [obj, obj]).2 (s.nextFreeOld + 1) = false ∧
    (drag_out_roots s [obj, obj]).2.mem (s.nextFreeOld + 1) = ⟨h0, Payload.pfields xs⟩ ∧
    (drag_out_roots s [obj, obj]).2.mem obj =
      ⟨hdrMinus42, Payload.forw (s.nextFreeOld + 1)⟩ := by
  have hin' : is_in_nursery s obj = true := by
    simp [is_in_nursery, hin.1, hin.2]
  have hford' : is_forwarded s obj = false := by
    simp [is_forwarded, hcell, hford]
  have hshadow' : (s.mem obj).hdr.hasShadow = false := by
    simp [hcell, hshadow]
  have hne : obj ≠ s.nextFreeOld + 1 := by omega
  have h1 := trace_drag_out_first s obj hin' hford' hshadow'
  set n := s.nextFreeOld + 1 with hn
  set sA := evacuate_copy
    { s with nextFreeOld := s.nextFreeOld + cellTotalSize (s.mem obj) } obj n with hsA
  have hAmemobj : sA.mem obj = ⟨hdrMinus42, Payload.forw n⟩ := by
    simp [hsA, evacuate_copy]
  have hAmemn : sA.mem n = ⟨h0, Payload.pfields xs⟩ := by
    rw [hsA]
    simp only [evacuate_copy]
    rw [if_neg (fun hc => hne hc.symm)]
    simp [hcell]
  have hAin : is_in_nursery sA obj = true := by
    simp [hsA, evacuate_copy, is_in_nursery, hin.1, hin.2]
  have h2 := trace_drag_out_forwarded sA obj n hAin hAmemobj
  have hroots : drag_out_roots s [obj, obj] = ([n, n], sA) := by
    simp only [drag_out_roots, h1, h2]
  refine ⟨by rw [hroots], ?_, by rw [hroots]; exact hAmemn, by rw [hroots]; exact hAmemobj⟩
  rw [hroots]
  simp only [hsA, evacuate_copy, is_in_nursery]
  simp only [decide_eq_false_iff_not, not_and, not_lt]
  intro _
  omega

/-- Witness for C6: a two-field object at nursery address 2, nursery `[0, 8)`,
fresh old memory starting at 16. -/
theorem trace_drag_out_forwarding_witness :
    ((drag_out_roots
        ⟨0, 8,
         fun a => if a = 2 then ⟨⟨7, false, false, false, false, false, false, false⟩,
                                  Payload.pfields [11, 22]⟩
                  else ⟨⟨0, false, false, false, false, false, false, false⟩,
                        Payload.pfields []⟩,
         fun _ => none, 16, []⟩ [2, 2]).1 = [17, 17] ∧
     is_in_nursery (drag_out_roots
        ⟨0, 8,
         fun a => if a = 2 then ⟨⟨7, false, false, false, false, false, false, false⟩,
                                  Payload.pfields [11, 22]⟩
                  else ⟨⟨0, false, false, false, false, false, false, false⟩,
                        Payload.pfields []⟩,
         fun _ => none, 16, []⟩ [2, 2]).2 17 = false ∧
     (drag_out_roots
        ⟨0, 8,
         fun a => if a = 2 then ⟨⟨7, false, false, false, false, false, false, false⟩,
                                  Payload.pfields [11, 22]⟩
                  else ⟨⟨0, false, false, false, false, false, false, false⟩,
                        Payload.pfields []⟩,
         fun _ => none, 16, []⟩ [2, 2]).2.mem 17 =
       ⟨⟨7, false, false, false, false, false, false, false⟩, Payload.pfields [11, 22]⟩ ∧
     (drag_out_roots
        ⟨0, 8,
         fun a => if a = 2 then ⟨⟨7, false, false, false, false, false, false, false⟩,
                                  Payload.pfields [11, 22]⟩
                  else ⟨⟨0, false, false, false, false, false, false, false⟩,
                        Payload.pfields []⟩,
         fun _ => none, 16, []⟩ [2, 2]).2.mem 2 =
       ⟨hdrMinus42, Payload.forw 17⟩) :=
  trace_drag_out_forwarding
    ⟨0, 8,
     fun a => if a = 2 then ⟨⟨7, false, false, false, false, false, false, false⟩,
                              Payload.pfields [11, 22]⟩
              else ⟨⟨0, false, false, false, false, false, false, false⟩,
                    Payload.pfields []⟩,
     fun _ => none, 16, []⟩ 2
    ⟨7, false, false, false, false, false, false, false⟩ [11, 22]
    (by exact ⟨by decide, by decide⟩) (by rfl) (by rfl) (by rfl) (by decide)

/- ----------  major collection: max heap size and the MemoryError latch  ---------- -/

/-- The heap-limit bookkeeping of `MiniMarkGC`: the major-collection factor and
threshold, the growth-rate bound, the minimum and maximum heap sizes, and the
`max_heap_size_already_raised` latch.  The source stores these as C doubles;
they are modelled as exact rationals. -/
structure HeapLimits where
  majorCollectionThreshold : Rat
  nextMajorCollectionThreshold : Rat
  growthRateMax : Rat
  minHeapSize : Rat
  maxHeapSize : Rat
  maxHeapSizeAlreadyRaised : Bool
deriving DecidableEq

/-- `MiniMarkGC.set_major_threshold_from(threshold, reserving_size)`: cap the
proposed threshold by `growth_rate_max` times the old one, add the reserved
size, raise to `min_heap_size`, and finally clamp to `max_heap_size` (returning
`bounded = true` exactly when the clamp was applied). -/
def set_major_threshold_from (l : HeapLimits) (threshold0 reservingSize : Rat) :
    Bool × HeapLimits :=
  let thresholdMax := l.nextMajorCollectionThreshold * l.growthRateMax
  let t1 := if thresholdMax < threshold0 then thresholdMax else threshold0
  let t2 := t1 + reservingSize
  let t3 := if t2 < l.minHeapSize then l.minHeapSize else t2
  if 0 < l.maxHeapSize ∧ l.maxHeapSize < t3 then
    (true, { l with nextMajorCollectionThreshold := l.maxHeapSize })
  else
    (false, { l with nextMajorCollectionThreshold := t3 })

/-- The outcome of the tail of `MiniMarkGC.major_collection`: normal return
(finalizers may then run), a raised `MemoryError`, or the fatal
`debug_fatalerror` abort. -/
inductive MajorOutcome
  | ok
  | memoryError
  | fatalAbort
deriving DecidableEq

/-- The tail of `MiniMarkGC.major_collection(reserving_size)` after the sweep:
recompute the next major-collection threshold from the memory still used; if the
threshold was clamped by the max heap size and the memory used plus the reserved
size still reaches it, raise `MemoryError` the first time (setting the
`max_heap_size_already_raised` latch) and abort fatally if the latch was already
set. -/
def major_collection_finish (l : HeapLimits) (totalMemoryUsed reservingSize : Rat) :
    MajorOutcome × HeapLimits :=
  let p := set_major_threshold_from l
    (totalMemoryUsed * l.majorCollectionThreshold) reservingSize
  let bounded := p.1
  let l1 := p.2
  if bounded = true ∧ l1.nextMajorCollectionThreshold ≤ totalMemoryUsed + reservingSize then
    if l1.maxHeapSizeAlreadyRaised then (MajorOutcome.fatalAbort, l1)
    else (MajorOutcome.memoryError, { l1 with maxHeapSizeAlreadyRaised := true })
  else (MajorOutcome.ok, l1)

/-- C7: when a major collection bounded by the max heap size still ends with
total memory used plus the reserved size at or above the (clamped) threshold,
the first occurrence raises `MemoryError` and sets the `already raised` latch,
and on the resulting state any second occurrence of the same condition aborts
fatally instead of raising again. -/
theorem major_collection_memory_error_latch (l : HeapLimits)
    (totalMemoryUsed reservingSize : Rat)
    (hlatch : l.maxHeapSizeAlreadyRaised = false)
    (hbounded : (set_major_threshold_from l
        (totalMemoryUsed * l.majorCollectionThreshold) reservingSize).1 = true)
    (hreach : (set_major_threshold_from l
        (totalMemoryUsed * l.majorCollectionThreshold) reservingSize).2.nextMajorCollectionThreshold ≤
        totalMemoryUsed + reservingSize) :
    (major_collection_finish l totalMemoryUsed reservingSize).1 =
      MajorOutcome.memoryError ∧
    (major_collection_finish l totalMemoryUsed reservingSize).2.maxHeapSizeAlreadyRaised =
      true ∧
    (∀ used2 res2 : Rat,
      (set_major_threshold_from (major_collection_finish l totalMemoryUsed reservingSize).2
          (used2 * (major_collection_finish l totalMemoryUsed reservingSize).2.majorCollectionThreshold)
          res2).1 = true →
      (set_major_threshold_from (major_collection_finish l totalMemoryUsed reservingSize).2
          (used2 * (major_collection_finish l totalMemoryUsed reservingSize).2.majorCollectionThreshold)
          res2).2.nextMajorCollectionThreshold ≤ used2 + res2 →
      (major_collection_finish (major_collection_finish l totalMemoryUsed reservingSize).2
          used2 res2).1 = MajorOutcome.fatalAbort) := by
  have hraised : ∀ (t : HeapLimits) (a b : Rat),
      (set_major_threshold_from t a b).2.maxHeapSizeAlreadyRaised =
        t.maxHeapSizeAlreadyRaised := by
    intro t a b
    unfold set_major_threshold_from
    by_cases hc : 0 < t.maxHeapSize ∧ t.maxHeapSize <
        (if (if t.nextMajorCollectionThreshold * t.growthRateMax <
              a then t.nextMajorCollectionThreshold * t.growthRateMax else a) + b <
            t.minHeapSize then t.minHeapSize
         else (if t.nextMajorCollectionThreshold * t.growthRateMax < a then
              t.nextMajorCollectionThreshold * t.growthRateMax else a) + b)
    · simp only [if_pos hc]
    · simp only [if_neg hc]
  have hfirst : (major_collection_finish l totalMemoryUsed reservingSize).1 =
      MajorOutcome.memoryError ∧
      (major_collection_finish l totalMemoryUsed reservingSize).2.maxHeapSizeAlreadyRaised =
        true := by
    unfold major_collection_finish
    simp only [if_pos (And.intro hbounded hreach)]
    rw [hraised l (totalMemoryUsed * l.majorCollectionThreshold) reservingSize] at *
    simp [hlatch]
  refine ⟨hfirst.1, hfirst.2, ?_⟩
  intro used2 res2 hb2 hr2
  set l2 := (major_collection_finish l totalMemoryUsed reservingSize).2 with hl2
  have hl2latch : l2.maxHeapSizeAlreadyRaised = true := hfirst.2
  unfold major_collection_finish
  simp only [if_pos (And.intro hb2 hr2)]
  rw [hraised l2 (used2 * l2.majorCollectionThreshold) res2, hl2latch]
  simp

/-- Witness for C7 at concrete limits: `factor = 2`, old threshold `50`, growth
rate `3`, min `0`, max `100`, memory used `120`. -/
theorem major_collection_memory_error_latch_witness :
    (major_collection_finish ⟨2, 50, 3, 0, 100, false⟩ 120 0).1 =
      MajorOutcome.memoryError ∧
    (major_collection_finish ⟨2, 50, 3, 0, 100, false⟩ 120 0).2.maxHeapSizeAlreadyRaised =
      true ∧
    (∀ used2 res2 : Rat,
      (set_major_threshold_from (major_collection_finish ⟨2, 50, 3, 0, 100, false⟩ 120 0).2
          (used2 * (major_collection_finish ⟨2, 50, 3, 0, 100, false⟩ 120 0).2.majorCollectionThreshold)
          res2).1 = true →
      (set_major_threshold_from (major_collection_finish ⟨2, 50, 3, 0, 100, false⟩ 120 0).2
          (used2 * (major_collection_finish ⟨2, 50, 3, 0, 100, false⟩ 120 0).2.majorCollectionThreshold)
          res2).2.nextMajorCollectionThreshold ≤ used2 + res2 →
      (major_collection_finish (major_collection_finish ⟨2, 50, 3, 0, 100, false⟩ 120 0).2
          used2 res2).1 = MajorOutcome.fatalAbort) :=
  major_collection_memory_error_latch ⟨2, 50, 3, 0, 100, false⟩ 120 0
    rfl (by norm_num [set_major_threshold_from]) (by norm_num [set_major_threshold_from])


/- ----------  card marking size formulas  ---------- -/

/-- `LONG_BIT` on a 64-bit build. -/
def LONG_BIT : Nat := 64

/-- `LONG_BIT_SHIFT`: log2 of `LONG_BIT`. -/
def LONG_BIT_SHIFT : Nat := 6

/-- `intmask`: reinterpret an unsigned 64-bit value as a signed machine word. -/
def intmask (n : Nat) : Int :=
  if n < 2 ^ 63 then (n : Int) else (n : Int) - 2 ^ 64

/-- `MiniMarkGC.card_marking_words_for_length(length)`, optimized version:
`intmask((r_uint(length) + ((LONG_BIT << card_page_shift) - 1)) >>
(card_page_shift + LONG_BIT_SHIFT))`, the unsigned addition performed modulo
`2 ^ 64`. -/
def card_marking_words_for_length (cardPageShift length : Nat) : Int :=
  intmask ((((length % 2 ^ 64) + ((LONG_BIT <<< cardPageShift) - 1)) % 2 ^ 64) >>>
    (cardPageShift + LONG_BIT_SHIFT))

/-- `MiniMarkGC.card_marking_bytes_for_length(length)`, optimized version. -/
def card_marking_bytes_for_length (cardPageShift length : Nat) : Int :=
  intmask ((((length % 2 ^ 64) + ((8 <<< cardPageShift) - 1)) % 2 ^ 64) >>>
    (cardPageShift + 3))

/-- The commented-out unoptimized reference formula for the card-marker word
count: `num_bits = ((length-1) >> card_page_shift) + 1;
(num_bits + (LONG_BIT - 1)) >> LONG_BIT_SHIFT`. -/
def card_marking_words_unoptimized (cardPageShift length : Nat) : Nat :=
  ((((length - 1) >>> cardPageShift) + 1) + (LONG_BIT - 1)) >>> LONG_BIT_SHIFT

/-- The commented-out unoptimized reference formula for the card-marker byte
count: `num_bits = ((length-1) >> card_page_shift) + 1; (num_bits + 7) >> 3`. -/
def card_marking_bytes_unoptimized (cardPageShift length : Nat) : Nat :=
  ((((length - 1) >>> cardPageShift) + 1) + 7) >>> 3

/-- Core arithmetic identity: both sides of the card-marking equivalence compute
the ceiling of `L / 2 ^ (s + k)`. -/
theorem card_marking_core (s k L : Nat) (hL : 1 ≤ L) :
    (L + (2 ^ k * 2 ^ s - 1)) / 2 ^ (s + k) =
    ((((L - 1) / 2 ^ s) + 1) + (2 ^ k - 1)) / 2 ^ k := by
  have hps : 0 < 2 ^ s := Nat.pos_pow_of_pos s (by norm_num)
  have hpk : 0 < 2 ^ k := Nat.pos_pow_of_pos k (by norm_num)
  have hL1 : L + (2 ^ k * 2 ^ s - 1) = (L - 1) + 2 ^ k * 2 ^ s := by
    have hks : 0 < 2 ^ k * 2 ^ s := Nat.mul_pos hpk hps
    omega
  have hR1 : (((L - 1) / 2 ^ s) + 1) + (2 ^ k - 1) = ((L - 1) / 2 ^ s) + 2 ^ k := by
    omega
  rw [hL1, hR1, pow_add, mul_comm (2 ^ s) (2 ^ k),
      Nat.add_div_right _ (Nat.mul_pos hpk hps),
      Nat.add_div_right _ hpk,
      Nat.div_div_eq_div_mul, mul_comm (2 ^ s) (2 ^ k)]

/-- The optimized formula, mod operations removed, agrees with the ceiling form
and its value fits in a signed word. -/
theorem card_marking_generic (s k L : Nat) (hL : 1 ≤ L) (hk : 1 ≤ k)
    (hfit : L + 2 ^ k * 2 ^ s ≤ 2 ^ 64) :
    (((L % 2 ^ 64) + (2 ^ k * 2 ^ s - 1)) % 2 ^ 64) / 2 ^ (s + k) =
      ((((L - 1) / 2 ^ s) + 1) + (2 ^ k - 1)) / 2 ^ k ∧
    (((L % 2 ^ 64) + (2 ^ k * 2 ^ s - 1)) % 2 ^ 64) / 2 ^ (s + k) < 2 ^ 63 := by
  have hApos : 0 < 2 ^ k * 2 ^ s := by positivity
  have hL64 : L < 2 ^ 64 := by omega
  have hmod1 : L % 2 ^ 64 = L := Nat.mod_eq_of_lt hL64
  have hsum : L + (2 ^ k * 2 ^ s - 1) < 2 ^ 64 := by omega
  rw [hmod1, Nat.mod_eq_of_lt hsum]
  refine ⟨card_marking_core s k L hL, ?_⟩
  have hk1 : 2 ^ k ≤ 2 ^ (s + k) := Nat.pow_le_pow_right (by norm_num) (by omega)
  have hb1 : (L + (2 ^ k * 2 ^ s - 1)) / 2 ^ (s + k) ≤
      (L + (2 ^ k * 2 ^ s - 1)) / 2 ^ k :=
    Nat.div_le_div_left hk1 (Nat.pos_pow_of_pos k (by norm_num))
  have hb2 : (L + (2 ^ k * 2 ^ s - 1)) / 2 ^ k < 2 ^ 63 := by
    apply Nat.div_lt_of_lt_mul
    have h2k : (2 : Nat) ≤ 2 ^ k := by
      calc (2 : Nat) = 2 ^ 1 := (pow_one 2).symm
        _ ≤ 2 ^ k := Nat.pow_le_pow_right (by norm_num) hk
    calc L + (2 ^ k * 2 ^ s - 1) < 2 ^ 64 := hsum
      _ = 2 * 2 ^ 63 := by norm_num
      _ ≤ 2 ^ k * 2 ^ 63 := Nat.mul_le_mul_right _ h2k
  exact lt_of_le_of_lt hb1 hb2

/-- C10: for every `length ≥ 1` and every power-of-two `card_page_indices`
(`card_page_shift` being its log2), the optimized bit-shift formulas compute the
same values as the commented-out unoptimized reference formulas, provided the
unsigned 64-bit intermediate sum does not wrap (true for every
machine-representable array length and realistic card page size). -/
theorem card_marking_optimized_eq_unoptimized (cardPageShift length : Nat)
    (hL : 1 ≤ length)
    (hwords : length + (LONG_BIT <<< cardPageShift) ≤ 2 ^ 64)
    (hbytes : length + (8 <<< cardPageShift) ≤ 2 ^ 64) :
    card_marking_words_for_length cardPageShift length =
      (card_marking_words_unoptimized cardPageShift length : Int) ∧
    card_marking_bytes_for_length cardPageShift length =
      (card_marking_bytes_unoptimized cardPageShift length : Int) := by
  have hA : LONG_BIT <<< cardPageShift = 2 ^ 6 * 2 ^ cardPageShift := by
    rw [Nat.shiftLeft_eq]; norm_num [LONG_BIT]
  have hB : (8 : Nat) <<< cardPageShift = 2 ^ 3 * 2 ^ cardPageShift := by
    rw [Nat.shiftLeft_eq]; norm_num
  constructor
  · obtain ⟨hgen, hsmall⟩ := card_marking_generic cardPageShift 6 length hL
      (by norm_num) (by rw [← hA]; exact hwords)
    unfold card_marking_words_for_length card_marking_words_unoptimized intmask
    rw [hA]
    rw [show cardPageShift + LONG_BIT_SHIFT = cardPageShift + 6 from rfl]
    rw [Nat.shiftRight_eq_div_pow, Nat.shiftRight_eq_div_pow, Nat.shiftRight_eq_div_pow]
    rw [if_pos hsmall, hgen]
    norm_num [LONG_BIT, LONG_BIT_SHIFT]
  · obtain ⟨hgen, hsmall⟩ := card_marking_generic cardPageShift 3 length hL
      (by norm_num) (by rw [← hB]; exact hbytes)
    unfold card_marking_bytes_for_length card_marking_bytes_unoptimized intmask
    rw [hB]
    rw [Nat.shiftRight_eq_div_pow, Nat.shiftRight_eq_div_pow, Nat.shiftRight_eq_div_pow]
    rw [if_pos hsmall, hgen]
    norm_num

/-- Witness for C10 at the production configuration: `card_page_indices = 128`
(`card_page_shift = 7`) and an array of length 1000. -/
theorem card_marking_optimized_eq_unoptimized_witness :
    card_marking_words_for_length 7 1000 =
      (card_marking_words_unoptimized 7 1000 : Int) ∧
    card_marking_bytes_for_length 7 1000 =
      (card_marking_bytes_unoptimized 7 1000 : Int) :=
  card_marking_optimized_eq_unoptimized 7 1000 (by decide)
    (by norm_num [LONG_BIT, Nat.shiftLeft_eq]) (by norm_num [Nat.shiftLeft_eq])

/- ----------  finalizer ordering (deal_with_objects_with_finalizers)  ---------- -/

/-- The slice of `MiniMarkGC` state driving finalizer ordering during a major
collection: per-object headers, the object reference graph (`self.trace`
enumerates the pointers an object contains), the deque
`objects_with_finalizers` and the list `run_finalizers`. -/
structure FinState where
  hdrF : Nat → HDR
  refs : Nat → List Nat
  objectsWithFinalizers : List Nat
  runFinalizers : List Nat

/-- Update one object's header. -/
def updHdrF (s : FinState) (obj : Nat) (f : HDR → HDR) : FinState :=
  { s with hdrF := fun a => if a = obj then f (s.hdrF a) else s.hdrF a }

/-- `MiniMarkGC._finalization_state(obj)`: 0 = unmarked, 1 = being marked,
2 = marked but finalizer pending, 3 = finalized, encoded in the `GCFLAG_VISITED`
and `GCFLAG_FINALIZATION_ORDERING` bits. -/
def finalization_state (s : FinState) (obj : Nat) : Nat :=
  if (s.hdrF obj).visited then
    (if (s.hdrF obj).finalizationOrdering then 2 else 3)
  else
    (if (s.hdrF obj).finalizationOrdering then 1 else 0)

/-- `MiniMarkGC.visit_all_objects` / `visit`: pop objects off the trace stack,
skip those already `VISITED` (or prebuilt with `NO_HEAP_PTRS`), set `VISITED`
and push their referents.  The loop is expressed with explicit fuel; every
theorem below instantiates enough fuel for its concrete graph. -/
def visit_all_objects (fuel : Nat) : FinState → List Nat → FinState :=
  match fuel with
  | 0 => fun s _ => s
  | fuel + 1 => fun s pending =>
    match pending with
    | [] => s
    | obj :: rest =>
      if (s.hdrF obj).visited || (s.hdrF obj).noHeapPtrs then
        visit_all_objects fuel s rest
      else
        visit_all_objects fuel
          (updHdrF s obj (fun h => { h with visited := true }))
          (s.refs obj ++ rest)

/-- `MiniMarkGC._recursively_bump_finalization_state_from_2_to_3(obj)`: walk the
graph from `obj` clearing `GCFLAG_FINALIZATION_ORDERING` (state 2 becomes 3),
propagating through referents still carrying the flag. -/
def bump_finalization_2_to_3 (fuel : Nat) : FinState → List Nat → FinState :=
  match fuel with
  | 0 => fun s _ => s
  | fuel + 1 => fun s pending =>
    match pending with
    | [] => s
    | y :: rest =>
      if (s.hdrF y).finalizationOrdering then
        bump_finalization_2_to_3 fuel
          (updHdrF s y (fun h => { h with finalizationOrdering := false }))
          (s.refs y ++ rest)
      else
        bump_finalization_2_to_3 fuel s rest

/-- The inner `while pending.non_empty()` loop of
`deal_with_objects_with_finalizers`: objects in state 0 are bumped to state 1
(`GCFLAG_FINALIZATION_ORDERING` set) and their referents traced; objects found
in state 2 are recursively bumped to state 3. -/
def finalizer_mark_pending (fuel : Nat) : FinState → List Nat → FinState :=
  match fuel with
  | 0 => fun s _ => s
  | fuel + 1 => fun s pending =>
    match pending with
    | [] => s
    | y :: rest =>
      if finalization_state s y = 0 then
        finalizer_mark_pending fuel
          (updHdrF s y (fun h => { h with finalizationOrdering := true }))
          (s.refs y ++ rest)
      else if finalization_state s y = 2 then
        finalizer_mark_pending fuel (bump_finalization_2_to_3 fuel s [y]) rest
      else
        finalizer_mark_pending fuel s rest

/-- The first `while` of `deal_with_objects_with_finalizers`: scan the
`objects_with_finalizers` deque; surviving (`VISITED`) entries are kept for the
next collection, dead ones are marked (0 to 1 over their reachable subgraph,
then 1 to 2 via `visit_all_objects`, which also makes them survive) and
remembered in `marked`. -/
def finalizer_scan_loop (fuel : Nat) :
    FinState → List Nat → List Nat → List Nat → FinState × List Nat × List Nat
  | s, [], marked, newWithFinalizer => (s, marked, newWithFinalizer)
  | s, x :: rest, marked, newWithFinalizer =>
    if (s.hdrF x).visited then
      finalizer_scan_loop fuel s rest marked (newWithFinalizer ++ [x])
    else
      let s1 := finalizer_mark_pending fuel s [x]
      let s2 := visit_all_objects fuel s1 [x]
      finalizer_scan_loop fuel s2 rest (marked ++ [x]) newWithFinalizer

/-- The second `while` of `deal_with_objects_with_finalizers`: every marked
object still in state 2 has its finalizer scheduled (appended to
`run_finalizers`) and is bumped to state 3; objects already in state 3 stay in
`objects_with_finalizers` for a later collection. -/
def finalizer_run_loop (fuel : Nat) :
    FinState → List Nat → List Nat → FinState × List Nat
  | s, [], newWithFinalizer => (s, newWithFinalizer)
  | s, x :: rest, newWithFinalizer =>
    if finalization_state s x = 2 then
      let s1 := { s with runFinalizers := s.runFinalizers ++ [x] }
      let s2 := bump_finalization_2_to_3 fuel s1 [x]
      finalizer_run_loop fuel s2 rest newWithFinalizer
    else
      finalizer_run_loop fuel s rest (newWithFinalizer ++ [x])

/-- `MiniMarkGC.deal_with_objects_with_finalizers`. -/
def deal_with_objects_with_finalizers (fuel : Nat) (s : FinState) : FinState :=
  let p := finalizer_scan_loop fuel { s with objectsWithFinalizers := [] }
    s.objectsWithFinalizers [] []
  let q := finalizer_run_loop fuel p.1 p.2.1 p.2.2
  { q.1 with objectsWithFinalizers := q.2 }

/-- One major collection restricted to the marking, finalizer and sweep phases
that matter to finalizer ordering: mark from the external roots and from
`run_finalizers` (as `collect_roots` does), run
`deal_with_objects_with_finalizers` when the deque is non-empty, then sweep,
clearing `GCFLAG_VISITED` on the survivors (dead objects are freed and their
headers never read again). -/
def major_collection_cycle (fuel : Nat) (externalRoots : List Nat) (s : FinState) :
    FinState :=
  let s1 := visit_all_objects fuel s (externalRoots ++ s.runFinalizers)
  let s2 := if s1.objectsWithFinalizers.isEmpty then s1
            else deal_with_objects_with_finalizers fuel s1
  { s2 with hdrF := fun a => { s2.hdrF a with visited := false } }

/-- Modelled from the spec: `GCBase.execute_finalizers` (not under `src/`) pops
every object from `run_finalizers` and calls its finalizer; the model returns
the objects whose finalizers fire, in order. -/
def execute_finalizers (s : FinState) : List Nat × FinState :=
  (s.runFinalizers, { s with runFinalizers := [] })

/-- Run `ncycles` major collections with no external roots, executing the
scheduled finalizers after each; return the concatenated firing order. -/
def finalizer_fire_order (fuel : Nat) : Nat → FinState → List Nat
  | 0, _ => []
  | ncycles + 1, s =>
    let s1 := major_collection_cycle fuel [] s
    let p := execute_finalizers s1
    p.1 ++ finalizer_fire_order fuel ncycles p.2

/-- An all-clear header. -/
def hdrClear : HDR := ⟨0, false, false, false, false, false, false, false⟩

/-- The scenario of the claim: finalizable objects A = 1, B = 2, C = 3 with the
reference chain A→B→C, all external references dropped. -/
def finChainState : FinState :=
  { hdrF := fun _ => hdrClear,
    refs := fun a => if a = 1 then [2] else if a = 2 then [3] else [],
    objectsWithFinalizers := [1, 2, 3],
    runFinalizers := [] }

/-- Counterexample for C8: on the chain A→B→C dropped all at once, the
finalizers fire in the order A, B, C (one per successive major collection), not
in the claimed order C, B, A. -/
theorem finalizer_chain_order_counterexample :
    finalizer_fire_order 12 3 finChainState = [1, 2, 3] ∧
    finalizer_fire_order 12 3 finChainState ≠ [3, 2, 1] := by
  constructor
  · decide
  · decide

/-- C8 (amended): the three-state algorithm makes the *pointing* object's
finalizer run first: on the chain A→B→C dropped together, A's finalizer alone is
scheduled by the first major collection (B and C are kept alive by A and
deferred), and the cumulative firing order over successive collections is
A, B, C — so for finalizable objects X reachable from Y, X's finalizer never
runs before Y's. -/
theorem finalizer_chain_order_amended :
    (execute_finalizers (major_collection_cycle 12 [] finChainState)).1 = [1] ∧
    finalizer_fire_order 12 3 finChainState = [1, 2, 3] := by
  constructor
  · decide
  · decide

/-- Counterexample for C10: at `card_page_shift = 58` (card page indices
`2 ^ 58`, a power of two) and `length = 2 ^ 63 - 1` (which is at least 1), the
unsigned 64-bit sum in the optimized word formula wraps around
(`r_uint(length) + ((64 << 58) - 1)` overflows), so the optimized formula yields
0 while the unoptimized reference formula yields 1: the equivalence does not
hold unconditionally for every length and every power-of-two page size. -/
theorem card_marking_wrap_counterexample :
    1 ≤ 2 ^ 63 - 1 ∧
    ¬ (card_marking_words_for_length 58 (2 ^ 63 - 1) =
        (card_marking_words_unoptimized 58 (2 ^ 63 - 1) : Int) ∧
       card_marking_bytes_for_length 58 (2 ^ 63 - 1) =
        (card_marking_bytes_unoptimized 58 (2 ^ 63 - 1) : Int)) := by
  constructor
  · decide
  · intro hc
    have hw := hc.1
    rw [show card_marking_words_for_length 58 (2 ^ 63 - 1) = 0 from by decide,
        show ((card_marking_words_unoptimized 58 (2 ^ 63 - 1) : Nat) : Int) = 1 from by decide]
      at hw
    exact absurd hw (by decide)
